import Mathlib

/-!
Verification of the snapshot/risk/analytics core of the student-finance
backend (`backend/app`).  The Python services are shallowly embedded:

* Python `int` fields become `ℤ`; Python `float` arithmetic on the
  decimal quantities appearing here is exact in `ℚ`, so probabilities,
  shares and `round(x, 3)` are modelled over `ℚ`.
* Randomness (`random.uniform`) and the outputs of the external ML
  artifacts and generation calls are passed in as explicit parameters.
* Python exceptions are modelled with `Except PyError`; a call of a
  method with more positional arguments than its signature accepts is a
  `TypeError`, modelled by `pythonCall`.
-/

/-- Python exception kinds relevant to the embedded code paths. -/
inductive PyError where
  | typeError
  | valueError
  | runtimeError
deriving DecidableEq, Repr

/-- Calling a Python function that accepts between `minArgs` and
`maxArgs` positional arguments (excluding `self`) with `given`
positional arguments: out-of-arity calls raise `TypeError` before the
body runs. -/
def pythonCall (minArgs maxArgs given : Nat) (body : α) : Except PyError α :=
  if minArgs ≤ given ∧ given ≤ maxArgs then Except.ok body else Except.error PyError.typeError

/-- Source: `backend/app/schemas/intake.py` `SnapshotData` (same field set as
`backend/app/schemas/ml.py` `MLInput`): the 17 structured fields, all
Python `int`. -/
structure SnapshotData where
  age : ℤ
  gender : ℤ
  year_in_school : ℤ
  major : ℤ
  monthly_income : ℤ
  financial_aid : ℤ
  tuition : ℤ
  housing : ℤ
  food : ℤ
  transportation : ℤ
  books_supplies : ℤ
  entertainment : ℤ
  personal_care : ℤ
  technology : ℤ
  health_wellness : ℤ
  miscellaneous : ℤ
  preferred_payment_method : ℤ
deriving DecidableEq, Repr

/-- Source: `MLInput` shares the exact field set of `SnapshotData`
(`MLInput(**snapshot_data.model_dump())` in the routes). -/
abbrev MLInput := SnapshotData

/-- Source: `backend/app/schemas/ml.py` `MLOutput`: the two risk probabilities. -/
structure MLOutput where
  overspending_prob : ℚ
  financial_stress_prob : ℚ
deriving DecidableEq, Repr

/-- Source: `backend/app/schemas/dashboard.py` `Analytics` (as produced by
`AnalyticsService.compute`). -/
structure Analytics where
  total_resources : ℤ
  total_spending : ℤ
  net_balance : ℤ
  is_overspending : Bool
  overspending_amount : ℤ
  savings_potential : ℤ
  food_share : ℚ
  housing_share : ℚ
  entertainment_share : ℚ
  discretionary_share : ℚ
  tuition_share : ℚ
deriving DecidableEq, Repr

/-- Python `round(x, 3)` on the exact decimal values occurring in these
services, modelled as exact rational rounding to 3 decimal places
(`round` on `ℚ`; the ties-to-even versus ties-away difference never
matters for the interval and congruence facts proved below). -/
def round3 (x : ℚ) : ℚ := (round (x * 1000) : ℤ) / 1000

/-- Source: `backend/app/services/analytics.py` `AnalyticsService.compute`:
totals, overspending/savings split, and the five share ratios with the
explicit zero-division guard `if total_resources > 0`. -/
def AnalyticsService.compute (s : SnapshotData) : Analytics :=
  let total_resources : ℤ := s.monthly_income + s.financial_aid
  let total_spending : ℤ :=
    s.tuition + s.housing + s.food + s.transportation + s.books_supplies +
    s.entertainment + s.personal_care + s.technology + s.health_wellness +
    s.miscellaneous
  let discretionary : ℤ := s.entertainment + s.personal_care + s.miscellaneous
  let food_share : ℚ :=
    if 0 < total_resources then round3 ((s.food : ℚ) / (total_resources : ℚ)) else 0
  let housing_share : ℚ :=
    if 0 < total_resources then round3 ((s.housing : ℚ) / (total_resources : ℚ)) else 0
  let entertainment_share : ℚ :=
    if 0 < total_resources then round3 ((s.entertainment : ℚ) / (total_resources : ℚ)) else 0
  let discretionary_share : ℚ :=
    if 0 < total_resources then round3 ((discretionary : ℚ) / (total_resources : ℚ)) else 0
  let tuition_share : ℚ :=
    if 0 < total_resources then round3 ((s.tuition : ℚ) / (total_resources : ℚ)) else 0
  let net_balance : ℤ := total_resources - total_spending
  let is_overspending : Bool := decide (net_balance < 0)
  let overspending_amount : ℤ := if net_balance < 0 then |net_balance| else 0
  let savings_potential : ℤ := if 0 < net_balance then net_balance else 0
  { total_resources := total_resources
    total_spending := total_spending
    net_balance := net_balance
    is_overspending := is_overspending
    overspending_amount := overspending_amount
    savings_potential := savings_potential
    food_share := food_share
    housing_share := housing_share
    entertainment_share := entertainment_share
    discretionary_share := discretionary_share
    tuition_share := tuition_share }

/-! ## RiskScorer (`backend/app/services/ml_model.py` `SpendingRiskModelService`) -/

/-- Spending ratio of `_mock_predict`: `total_spending / total_income`,
with the explicit `2.0` substitute when `total_income == 0`. -/
def mock_spending_ratio (ml : MLInput) : ℚ :=
  let total_income : ℤ := ml.monthly_income + ml.financial_aid
  let total_spending : ℤ :=
    ml.tuition + ml.housing + ml.food + ml.transportation + ml.books_supplies +
    ml.entertainment + ml.personal_care + ml.technology + ml.health_wellness +
    ml.miscellaneous
  if total_income = 0 then 2 else (total_spending : ℚ) / (total_income : ℚ)

/-- Pre-jitter overspending base probability of `_mock_predict`:
threshold table on the spending ratio, then the discretionary-ratio
adjustment capped at `0.85`. -/
def mock_overspending_base (ml : MLInput) : ℚ :=
  let total_income : ℤ := ml.monthly_income + ml.financial_aid
  let discretionary : ℤ := ml.entertainment + ml.personal_care + ml.miscellaneous
  let spending_ratio := mock_spending_ratio ml
  let base : ℚ :=
    if 1.3 ≤ spending_ratio then 0.7
    else if 1.1 ≤ spending_ratio then 0.5
    else if 1 ≤ spending_ratio then 0.35
    else if 0.9 ≤ spending_ratio then 0.2
    else 0.1
  if 0 < total_income then
    let discretionary_ratio : ℚ := (discretionary : ℚ) / (total_income : ℚ)
    if 0.3 < discretionary_ratio then min 0.85 (base + 0.1)
    else if 0.2 < discretionary_ratio then min 0.85 (base + 0.05)
    else base
  else base

/-- Pre-jitter financial-stress base probability of `_mock_predict`:
income threshold table, then spending-ratio and year-in-school
adjustments capped at `0.95`. -/
def mock_stress_base (ml : MLInput) : ℚ :=
  let total_income : ℤ := ml.monthly_income + ml.financial_aid
  let spending_ratio := mock_spending_ratio ml
  let base : ℚ :=
    if total_income < 800 then 0.7
    else if total_income < 1200 then 0.5
    else if total_income < 1800 then 0.35
    else 0.2
  let base : ℚ :=
    if 1 < spending_ratio then min 0.95 (base + 0.2)
    else if 0.95 < spending_ratio then min 0.95 (base + 0.1)
    else base
  if 3 ≤ ml.year_in_school then min 0.95 (base + 0.05) else base

/-- Source: `_mock_predict`: the two jitter draws `random.uniform(-0.05, 0.05)`
are passed in explicitly; each probability is clamped with
`max(0.05, min(0.95, base + jitter))` and rounded to 3 decimals. -/
def mock_predict (ml : MLInput) (jitter_over jitter_stress : ℚ) : MLOutput :=
  { overspending_prob := round3 (max 0.05 (min 0.95 (mock_overspending_base ml + jitter_over)))
    financial_stress_prob := round3 (max 0.05 (min 0.95 (mock_stress_base ml + jitter_stress))) }

/-- Source: `_predict_with_models`.  The external artifacts are opaque: the
classifier's `predict_proba(df)[0]` row is passed in as `stress_proba`
and the value of the logistic transform `1 / (1 + exp(-raw / 400))` of
the regressor output as `overspending_sigmoid` (an external real-valued
`math.exp` computation whose value always lies strictly between 0
and 1).  Only `overspending_prob` is clamped (`min(0.85, max(0.05, p))`);
`financial_stress_prob` is the selected classifier probability, rounded
but not clamped. -/
def predict_with_models (stress_proba : List ℚ) (overspending_sigmoid : ℚ) : MLOutput :=
  let financial_stress_prob : ℚ :=
    if 1 < stress_proba.length then stress_proba.getD 1 0 else stress_proba.getD 0 0
  let overspending_prob : ℚ := min 0.85 (max 0.05 overspending_sigmoid)
  { overspending_prob := round3 overspending_prob
    financial_stress_prob := round3 financial_stress_prob }

/-- Model-load state of `SpendingRiskModelService` (`self._models_loaded`;
the two joblib handles carry no information relevant to the load state
machine beyond this flag). -/
structure ScorerState where
  models_loaded : Bool
deriving DecidableEq, Repr

/-- Source: `SpendingRiskModelService.__init__`: `_models_loaded = False`. -/
def scorerInit : ScorerState := ⟨false⟩

/-- Per-call disk environment for `_load_models`: whether both artifact
files exist, and whether `joblib.load` of both succeeds. -/
structure LoadEnv where
  files_exist : Bool
  load_ok : Bool
deriving DecidableEq, Repr

/-- Source: `_load_models`: early return when already loaded; otherwise, when
both files exist, attempt `joblib.load` (second component `true` records
that a load was attempted) and set `_models_loaded` to the attempt's
outcome; when a file is missing, leave `_models_loaded = False`. -/
def _load_models (env : LoadEnv) (s : ScorerState) : ScorerState × Bool :=
  if s.models_loaded then (s, false)
  else if env.files_exist then (⟨env.load_ok⟩, true)
  else (⟨false⟩, false)

/-- Which path `predict` takes after `_load_models`. -/
inductive RiskPath where
  | modelBacked
  | heuristic
deriving DecidableEq, Repr

/-- Source: `predict`: call `_load_models`, then dispatch on `_models_loaded`
(`_predict_with_models` when loaded, `_mock_predict` otherwise). -/
def predictPath (env : LoadEnv) (s : ScorerState) : ScorerState × RiskPath :=
  let s' := (_load_models env s).1
  (s', if s'.models_loaded then RiskPath.modelBacked else RiskPath.heuristic)

/-! ## SafetyGuard (`backend/app/services/claude_safety.py`) -/

/-- Source: `MAX_USER_MESSAGE_LENGTH = 2000`. -/
def MAX_USER_MESSAGE_LENGTH : Nat := 2000

/-- Case-insensitive prefix test on character lists (the injection
patterns are literal strings, so `re.search(, re.IGNORECASE)` is
literal matching up to `toLower`). -/
def ciPrefix : List Char → List Char → Bool
  | [], _ => true
  | _ :: _, [] => false
  | p :: ps, c :: cs => (p.toLower = c.toLower) && ciPrefix ps cs

/-- Case-insensitive substring test. -/
def containsCI (pat : List Char) : List Char → Bool
  | [] => ciPrefix pat []
  | c :: cs => ciPrefix pat (c :: cs) || containsCI pat cs

/-- Embedding of `re.sub(pat, repl, s, flags=IGNORECASE)` for a literal pattern:
leftmost non-overlapping case-insensitive replacement. -/
def ciReplace (pat repl : List Char) (s : List Char) : List Char :=
  match s with
  | [] => []
  | c :: cs =>
    if h : pat ≠ [] ∧ ciPrefix pat (c :: cs) = true then
      repl ++ ciReplace pat repl ((c :: cs).drop pat.length)
    else
      c :: ciReplace pat repl cs
termination_by s.length
decreasing_by
  · have hp : pat.length ≠ 0 := fun hz => h.1 (List.length_eq_zero.mp hz)
    simp only [List.length_drop, List.length_cons]
    omega
  · simp only [List.length_cons]
    omega

/-- Python `str.isspace` characters relevant to `str.strip` (ASCII). -/
def isPySpace (c : Char) : Bool :=
  c = ' ' || c = '\t' || c = '\n' || c = '\r' || c = '\x0b' || c = '\x0c'

/-- Python `str.strip()`. -/
def pyStrip (s : List Char) : List Char :=
  ((s.dropWhile isPySpace).reverse.dropWhile isPySpace).reverse

/-- The fixed `injection_patterns` list of `sanitize_user_input`. -/
def INJECTION_PATTERNS : List (List Char) :=
  ["ignore previous instructions".toList,
   "disregard all prior".toList,
   "forget everything".toList,
   "you are now".toList,
   "new instructions:".toList,
   "system prompt:".toList]

/-- The replacement placeholder written over matched patterns. -/
def REMOVED_TOKEN : List Char := "[removed]".toList

/-- Source: `ClaudeSafetyGuard.sanitize_user_input`: empty-falsy guard, truncate
to 2000 characters appending an ellipsis, redact each injection pattern
case-insensitively, then strip. -/
def sanitize_user_input (message : List Char) : List Char :=
  if message = [] then []
  else
    pyStrip (INJECTION_PATTERNS.foldl
      (fun acc pat => ciReplace pat REMOVED_TOKEN acc)
      (if MAX_USER_MESSAGE_LENGTH < message.length
        then message.take MAX_USER_MESSAGE_LENGTH ++ "...".toList
        else message))

/-! ## Teacher service (`backend/app/services/claude_teacher.py`) -/

/-- Source: `backend/app/schemas/teacher.py` `LessonOutline`. -/
structure LessonOutline where
  title : String
  bullet_points : List String
deriving DecidableEq, Repr

/-- Source: `backend/app/schemas/teacher.py` `FieldUpdate` (`value: int | float`;
the route applies `int(update.value)`, so the applied value is modelled
as the integer). -/
structure FieldUpdate where
  field : String
  value : ℤ
deriving DecidableEq, Repr

/-- Source: `backend/app/schemas/teacher.py` `TeacherOutput` with its pydantic
defaults. -/
structure TeacherOutput where
  response_type : String := "coaching"
  priority_issues : List String
  explanation : String
  actions_for_week : List String := []
  lesson_outline : Option LessonOutline := none
  field_updates : List FieldUpdate := []
deriving DecidableEq, Repr

/-- Source: `MAX_FIELD_VALUE = 1_000_000`. -/
def MAX_FIELD_VALUE : ℤ := 1000000

/-- Source: `ClaudeSafetyGuard.validate_financial_data` on a full snapshot dict:
each of the 12 monetary fields must be a number, nonnegative and at most
the ceiling; age must lie in `[16, 100]` (the `isinstance` checks hold
by typing in this embedding; the human-readable reason string is
elided). -/
def validate_financial_data (d : SnapshotData) : Bool :=
  decide (0 ≤ d.monthly_income ∧ d.monthly_income ≤ MAX_FIELD_VALUE ∧
    0 ≤ d.financial_aid ∧ d.financial_aid ≤ MAX_FIELD_VALUE ∧
    0 ≤ d.tuition ∧ d.tuition ≤ MAX_FIELD_VALUE ∧
    0 ≤ d.housing ∧ d.housing ≤ MAX_FIELD_VALUE ∧
    0 ≤ d.food ∧ d.food ≤ MAX_FIELD_VALUE ∧
    0 ≤ d.transportation ∧ d.transportation ≤ MAX_FIELD_VALUE ∧
    0 ≤ d.books_supplies ∧ d.books_supplies ≤ MAX_FIELD_VALUE ∧
    0 ≤ d.entertainment ∧ d.entertainment ≤ MAX_FIELD_VALUE ∧
    0 ≤ d.personal_care ∧ d.personal_care ≤ MAX_FIELD_VALUE ∧
    0 ≤ d.technology ∧ d.technology ≤ MAX_FIELD_VALUE ∧
    0 ≤ d.health_wellness ∧ d.health_wellness ≤ MAX_FIELD_VALUE ∧
    0 ≤ d.miscellaneous ∧ d.miscellaneous ≤ MAX_FIELD_VALUE ∧
    16 ≤ d.age ∧ d.age ≤ 100)

/-- Outcome of the external guarded generation attempt inside
`_respond_with_claude`: the call raised, the output failed
`check_output_safety`, the output failed `validate_json_response`, or a
valid `TeacherOutput` was parsed. -/
inductive ClaudeOutcome where
  | raised
  | unsafeOutput
  | invalidJson
  | ok (out : TeacherOutput)
deriving DecidableEq, Repr

/-- Teacher-side environment: whether `settings.anthropic_api_key` is
set (and hence `self.client` constructed), and the generation outcome. -/
structure TeacherEnv where
  client_present : Bool
  outcome : ClaudeOutcome
deriving DecidableEq, Repr

/-- The static fallback `TeacherOutput` that the body of
`_generate_fallback_response` would build. -/
def fallback_teacher_output : TeacherOutput :=
  { priority_issues := ["api_unavailable"]
    explanation := "I\x27m having trouble connecting right now. Please try again in a moment."
    actions_for_week := ["Check back shortly for personalized advice"]
    lesson_outline := some
      ⟨"Quick Tip", ["Tracking spending is the first step to awareness"]⟩ }

/-- Source: `_generate_fallback_response(self)` declares no positional
parameter besides `self`. -/
def FALLBACK_DEF_PARAMS : Nat := 0

/-- Every call site of `_generate_fallback_response` passes six
positional arguments (snapshot, ml_output, analytics, message,
previous_snapshot, previous_analytics). -/
def FALLBACK_CALL_ARGS : Nat := 6

/-- Source: `ClaudeTeacherService.generate_response`.  The three fallback paths
(invalid financial data; generation raised / unsafe output / invalid
JSON; missing client) all invoke `_generate_fallback_response` with six
positional arguments against a zero-parameter signature.  In the
unsafe-output and invalid-JSON cases the mis-aritied call happens inside
the `try` block, is caught by the generic `except`, and the handler
repeats the same mis-aritied call, so a `TypeError` propagates in every
fallback case. -/
def generate_response (env : TeacherEnv) (snapshot : SnapshotData)
    (ml_output : MLOutput) (analytics : Analytics) (user_message : List Char)
    (previous_snapshot : Option SnapshotData) :
    Except PyError TeacherOutput :=
  let _safe_message := sanitize_user_input user_message
  if validate_financial_data snapshot = false then
    pythonCall FALLBACK_DEF_PARAMS FALLBACK_DEF_PARAMS FALLBACK_CALL_ARGS
      fallback_teacher_output
  else if env.client_present then
    match env.outcome with
    | ClaudeOutcome.ok out => Except.ok out
    | _ =>
      pythonCall FALLBACK_DEF_PARAMS FALLBACK_DEF_PARAMS FALLBACK_CALL_ARGS
        fallback_teacher_output
  else
    pythonCall FALLBACK_DEF_PARAMS FALLBACK_DEF_PARAMS FALLBACK_CALL_ARGS
      fallback_teacher_output

/-! ## Survey service (`backend/app/services/claude_survey.py`) -/

/-- Source: `PROFILE_FIELDS`. -/
def PROFILE_FIELDS : List String :=
  ["age", "gender", "year_in_school", "major", "preferred_payment_method"]

/-- Source: `FINANCIAL_FIELDS`. -/
def FINANCIAL_FIELDS : List String :=
  ["monthly_income", "financial_aid", "tuition", "housing", "food",
   "transportation", "books_supplies", "entertainment", "personal_care",
   "technology", "health_wellness", "miscellaneous"]

/-- Source: `REQUIRED_FIELDS = PROFILE_FIELDS + FINANCIAL_FIELDS`. -/
def REQUIRED_FIELDS : List String := PROFILE_FIELDS ++ FINANCIAL_FIELDS

/-- One entry of the canned-question table of `_generate_mock_question`. -/
structure CannedQuestion where
  question : String
  context : Option String
  suggested_type : String
  options : Option (List String)
deriving DecidableEq, Repr

/-- The fixed `questions` table of `_generate_mock_question`, keyed by
field name. -/
def survey_questions (f : String) : Option CannedQuestion :=
  match f with
  | "age" => some
      ⟨"Let\x27s start with the basics! How old are you?",
       some "This helps me tailor advice to your life stage.", "number", none⟩
  | "gender" => some
      ⟨"How do you identify?",
       some "This helps personalize your experience.", "select",
       some ["Male", "Female", "Non-binary", "Prefer not to say"]⟩
  | "year_in_school" => some
      ⟨"What year are you in school?",
       some "Different years come with different financial challenges.", "select",
       some ["Freshman", "Sophomore", "Junior", "Senior", "Graduate"]⟩
  | "major" => some
      ⟨"What are you studying?",
       some "Your major can affect both expenses and future income.", "text", none⟩
  | "monthly_income" => some
      ⟨"How much money do you bring in each month?",
       some "Include jobs, allowances, gig work—everything that comes in regularly.",
       "number", none⟩
  | "financial_aid" => some
      ⟨"Do you receive any financial aid? How much per month?",
       some "Include scholarships, grants, and any loan money you use for living expenses.",
       "number", none⟩
  | "tuition" => some
      ⟨"What\x27s your monthly tuition cost?",
       some "If you pay per semester, just divide by the number of months.",
       "number", none⟩
  | "housing" => some
      ⟨"How much do you spend on housing each month?",
       some "Include rent, utilities, internet—the whole package.", "number", none⟩
  | "food" => some
      ⟨"What about food? How much do you typically spend monthly?",
       some "Groceries, meal plans, dining out, coffee runs—all of it counts!",
       "number", none⟩
  | "transportation" => some
      ⟨"How much do you spend getting around?",
       some "Gas, public transit, rideshares, bike maintenance—whatever you use.",
       "number", none⟩
  | "books_supplies" => some
      ⟨"What do books and supplies cost you monthly?",
       some "Textbooks, lab materials, school supplies. If it varies, give me an average.",
       "number", none⟩
  | "entertainment" => some
      ⟨"Now for the fun stuff—how much goes to entertainment?",
       some "Streaming, games, concerts, nights out with friends.", "number", none⟩
  | "personal_care" => some
      ⟨"What about personal care and self-maintenance?",
       some "Haircuts, skincare, gym, clothes—taking care of yourself.", "number", none⟩
  | "technology" => some
      ⟨"Any regular technology expenses?",
       some "Phone plan, app subscriptions, software you need.", "number", none⟩
  | "health_wellness" => some
      ⟨"What do you spend on health and wellness?",
       some "Insurance, medications, therapy, doctor visits.", "number", none⟩
  | "miscellaneous" => some
      ⟨"Anything else we haven\x27t covered?",
       some "Gifts, random purchases, unexpected expenses—the stuff that doesn\x27t fit elsewhere.",
       "number", none⟩
  | "preferred_payment_method" => some
      ⟨"Last one! How do you usually pay for things?",
       some "This tells me a bit about your spending habits.", "select",
       some ["Cash", "Credit Card", "Debit Card", "Mobile Payment (Venmo, Apple Pay, etc.)"]⟩
  | _ => none

/-- The `questions.get(next_field, default)` fallback entry. -/
def default_survey_question (next_field : String) : CannedQuestion :=
  ⟨"Tell me about your " ++
      String.map (fun c => if c = '_' then ' ' else c) next_field,
    none, "text", none⟩

/-- The dict returned by `generate_next_question` /
`_generate_mock_question`. -/
structure NextQuestion where
  field : Option String
  question : Option String
  context : Option String
  is_complete : Bool
  suggested_type : Option String
  options : Option (List String)
  progress : ℚ
deriving DecidableEq, Repr

/-- Body of `_generate_mock_question(collected_fields,
has_profile=False)` (the logic the method would run when called with a
legal number of arguments). -/
def _generate_mock_question (collected_fields : List String)
    (has_profile : Bool) : NextQuestion :=
  let required := if has_profile then FINANCIAL_FIELDS else REQUIRED_FIELDS
  let missing_fields := required.filter (fun f => !(collected_fields.contains f))
  match missing_fields with
  | [] => ⟨none, none, none, true, none, none, 1⟩
  | next_field :: _ =>
    let q := (survey_questions next_field).getD (default_survey_question next_field)
    ⟨some next_field, some q.question, q.context, false, some q.suggested_type,
      q.options, (collected_fields.length : ℚ) / (required.length : ℚ)⟩

/-- Outcome of the external question-generation attempt inside
`_generate_claude_question`. -/
inductive SurveyOutcome where
  | raised
  | jsonFail
  | parsedOk (q : NextQuestion)
deriving DecidableEq, Repr

/-- Survey-side environment: client constructed iff the API key is set,
plus the generation outcome. -/
structure SurveyEnv where
  client_present : Bool
  outcome : SurveyOutcome
deriving DecidableEq, Repr

/-- Source: `_generate_mock_question(self, collected_fields, has_profile=False)`
accepts between 1 and 2 positional arguments. -/
def MOCK_Q_MIN_ARGS : Nat := 1

/-- See `MOCK_Q_MIN_ARGS`. -/
def MOCK_Q_MAX_ARGS : Nat := 2

/-- Every call site passes `(conversation_history, collected_fields,
has_profile_flag)` — three positional arguments. -/
def MOCK_Q_CALL_ARGS : Nat := 3

/-- Source: `ClaudeSurveyService.generate_next_question`.  When every required
field is collected, the terminal dict is returned.  Otherwise, with no
client, or after a failed/unparsable generation, the code falls back to
`self._generate_mock_question(conversation_history, collected_fields,
has_profile)` — three positional arguments against a signature
accepting at most two (in the JSON-failure case the mis-aritied call is
raised inside the `try`, caught, and repeated by the handler), so a
`TypeError` propagates. -/
def generate_next_question (env : SurveyEnv)
    (conversation_history : List String) (collected_fields : List String)
    (has_profile : Bool) : Except PyError NextQuestion :=
  let required := if has_profile then FINANCIAL_FIELDS else REQUIRED_FIELDS
  let missing_fields := required.filter (fun f => !(collected_fields.contains f))
  if missing_fields = [] then
    Except.ok ⟨none, none, none, true, none, none, 1⟩
  else if env.client_present = false then
    pythonCall MOCK_Q_MIN_ARGS MOCK_Q_MAX_ARGS MOCK_Q_CALL_ARGS
      (_generate_mock_question collected_fields has_profile)
  else
    match env.outcome with
    | SurveyOutcome.parsedOk q => Except.ok q
    | _ =>
      pythonCall MOCK_Q_MIN_ARGS MOCK_Q_MAX_ARGS MOCK_Q_CALL_ARGS
        (_generate_mock_question collected_fields has_profile)

/-! ## Parser service (`backend/app/services/claude_parser.py`) and the
`User` profile (`backend/app/models/user.py`) -/

/-- The nullable profile columns of `User`. -/
structure User where
  age : Option ℤ
  gender : Option ℤ
  year_in_school : Option ℤ
  major : Option ℤ
  preferred_payment_method : Option ℤ
deriving DecidableEq, Repr

/-- Source: `User.has_profile`: all five profile fields non-null. -/
def User.has_profile (u : User) : Bool :=
  u.age.isSome && u.gender.isSome && u.year_in_school.isSome &&
  u.major.isSome && u.preferred_payment_method.isSome

/-- The pydantic `Field` bounds of `SnapshotData`
(`backend/app/schemas/intake.py`). -/
def snapshot_data_valid (d : SnapshotData) : Bool :=
  decide (16 ≤ d.age ∧ d.age ≤ 100 ∧
    0 ≤ d.gender ∧ d.gender ≤ 3 ∧
    0 ≤ d.year_in_school ∧ d.year_in_school ≤ 4 ∧
    0 ≤ d.major ∧ d.major ≤ 8 ∧
    0 ≤ d.monthly_income ∧ 0 ≤ d.financial_aid ∧ 0 ≤ d.tuition ∧
    0 ≤ d.housing ∧ 0 ≤ d.food ∧ 0 ≤ d.transportation ∧
    0 ≤ d.books_supplies ∧ 0 ≤ d.entertainment ∧ 0 ≤ d.personal_care ∧
    0 ≤ d.technology ∧ 0 ≤ d.health_wellness ∧ 0 ≤ d.miscellaneous ∧
    0 ≤ d.preferred_payment_method ∧ d.preferred_payment_method ≤ 3)

/-- Source: `SnapshotData(**parsed)`: pydantic validation raising `ValueError`
on a range violation. -/
def SnapshotData.validate (d : SnapshotData) : Except PyError SnapshotData :=
  if snapshot_data_valid d then Except.ok d else Except.error PyError.valueError

/-- Source: `ClaudeParserService.parse`.  `client_present` models
`self.client and self.api_key` (missing configuration raises
`RuntimeError`); `parsed` is the JSON dict already extracted by
`_parse_with_claude` (an opaque generation step whose raw/unparsable
failures raise before this logic runs).  Returns the validated
`SnapshotData` and the possibly-updated `User` row: a complete profile
overrides the parsed profile fields; an incomplete profile is populated
from the freshly parsed values (before validation runs, as in the
source order). -/
def ClaudeParserService.parse (client_present : Bool) (parsed : SnapshotData)
    (user : Option User) : Except PyError SnapshotData × Option User :=
  if client_present = false then
    (Except.error PyError.runtimeError, user)
  else
    let p2 : SnapshotData :=
      match user with
      | some u =>
        if u.has_profile then
          { parsed with
            age := u.age.getD 0
            gender := u.gender.getD 0
            year_in_school := u.year_in_school.getD 0
            major := u.major.getD 0
            preferred_payment_method := u.preferred_payment_method.getD 0 }
        else parsed
      | none => parsed
    let user2 : Option User :=
      match user with
      | some u =>
        if u.has_profile then some u
        else some ⟨some parsed.age, some parsed.gender, some parsed.year_in_school,
          some parsed.major, some parsed.preferred_payment_method⟩
      | none => none
    (p2.validate, user2)

/-! ## Chat-driven snapshot merge (`backend/app/routes/teacher.py`
`teacher_chat`, lines 148-200) -/

/-- Source: `updated_data[update.field] = int(update.value)` for one detected
update: `update.field` is matched against the keys of the snapshot dict
(all 17 fields of `model_dump()`); unknown field names are skipped. -/
def applyFieldUpdate (s : SnapshotData) (upd : FieldUpdate) : SnapshotData :=
  match upd.field with
  | "age" => { s with age := upd.value }
  | "gender" => { s with gender := upd.value }
  | "year_in_school" => { s with year_in_school := upd.value }
  | "major" => { s with major := upd.value }
  | "monthly_income" => { s with monthly_income := upd.value }
  | "financial_aid" => { s with financial_aid := upd.value }
  | "tuition" => { s with tuition := upd.value }
  | "housing" => { s with housing := upd.value }
  | "food" => { s with food := upd.value }
  | "transportation" => { s with transportation := upd.value }
  | "books_supplies" => { s with books_supplies := upd.value }
  | "entertainment" => { s with entertainment := upd.value }
  | "personal_care" => { s with personal_care := upd.value }
  | "technology" => { s with technology := upd.value }
  | "health_wellness" => { s with health_wellness := upd.value }
  | "miscellaneous" => { s with miscellaneous := upd.value }
  | "preferred_payment_method" => { s with preferred_payment_method := upd.value }
  | _ => s

/-- The `for update in teacher_output.field_updates` loop. -/
def applyFieldUpdates (s : SnapshotData) (us : List FieldUpdate) : SnapshotData :=
  us.foldl applyFieldUpdate s

/-- The persisted slice of a `SpendingSnapshot` row relevant to the
merge decision: primary key, creation calendar date (as a day number),
the 17 fields, and the cached risk probabilities. -/
structure SnapRow where
  id : Nat
  created_date : ℤ
  fields : SnapshotData
  overspending_prob : ℚ
  financial_stress_prob : ℚ
deriving DecidableEq, Repr

/-- The persistence step of `teacher_chat` for a response carrying
field updates: build the updated field set from the active snapshot,
then — if the active snapshot was created today — overwrite that row in
place; otherwise append a fresh row dated today.  (`new_probs` are the
re-run ML outputs; the regenerated summary is orthogonal to the merge
decision and elided.) -/
def teacher_chat_merge (db : List SnapRow) (active : SnapRow) (today : ℤ)
    (updates : List FieldUpdate) (new_probs : ℚ × ℚ) (fresh_id : Nat) :
    List SnapRow :=
  if updates = [] then db
  else
    let new_data := applyFieldUpdates active.fields updates
    if active.created_date = today then
      db.map (fun r =>
        if r.id = active.id then
          { r with
            fields := new_data
            overspending_prob := new_probs.1
            financial_stress_prob := new_probs.2 }
        else r)
    else
      db ++ [⟨fresh_id, today, new_data, new_probs.1, new_probs.2⟩]

/-! ## Theorems -/

/-- Monotonicity: `round` is monotone on `ℚ`. -/
theorem round_le_round_of_le {x y : ℚ} (h : x ≤ y) : round x ≤ round y := by
  rw [round_eq, round_eq]
  exact Int.floor_le_floor (by linarith)

/-- Interval preservation: `round3` maps `[a/1000, b/1000]` into itself for integer `a ≤ b`. -/
theorem round3_mem_Icc {x : ℚ} {a b : ℤ} (h1 : (a : ℚ) / 1000 ≤ x)
    (h2 : x ≤ (b : ℚ) / 1000) :
    (a : ℚ) / 1000 ≤ round3 x ∧ round3 x ≤ (b : ℚ) / 1000 := by
  have hx1 : (a : ℚ) ≤ x * 1000 := by linarith
  have hx2 : x * 1000 ≤ (b : ℚ) := by linarith
  have l1 : a ≤ round (x * 1000) := by
    have := round_le_round_of_le hx1
    simpa using this
  have l2 : round (x * 1000) ≤ b := by
    have := round_le_round_of_le hx2
    simpa using this
  constructor
  · unfold round3
    have : (a : ℚ) ≤ (round (x * 1000) : ℤ) := by exact_mod_cast l1
    linarith
  · unfold round3
    have : ((round (x * 1000) : ℤ) : ℚ) ≤ (b : ℚ) := by exact_mod_cast l2
    linarith

/-- C5: for every field set, `AnalyticsService.compute` returns totals
with `total_resources = monthly_income + financial_aid`,
`total_spending` = the sum of the ten spending categories,
`net_balance = total_resources - total_spending`,
`overspending_amount = max 0 (-net_balance)`,
`savings_potential = max 0 net_balance`; hence at most one of the two is
nonzero, and both are zero exactly when `net_balance = 0`. -/
theorem analytics_compute_invariants (s : SnapshotData) :
    (AnalyticsService.compute s).total_resources = s.monthly_income + s.financial_aid ∧
    (AnalyticsService.compute s).total_spending =
      s.tuition + s.housing + s.food + s.transportation + s.books_supplies +
      s.entertainment + s.personal_care + s.technology + s.health_wellness +
      s.miscellaneous ∧
    (AnalyticsService.compute s).net_balance =
      (AnalyticsService.compute s).total_resources - (AnalyticsService.compute s).total_spending ∧
    (AnalyticsService.compute s).overspending_amount =
      max 0 (-(AnalyticsService.compute s).net_balance) ∧
    (AnalyticsService.compute s).savings_potential =
      max 0 (AnalyticsService.compute s).net_balance ∧
    ((AnalyticsService.compute s).overspending_amount = 0 ∨
      (AnalyticsService.compute s).savings_potential = 0) ∧
    (((AnalyticsService.compute s).overspending_amount = 0 ∧
      (AnalyticsService.compute s).savings_potential = 0) ↔
      (AnalyticsService.compute s).net_balance = 0) := by
  have h1 : (AnalyticsService.compute s).total_resources =
      s.monthly_income + s.financial_aid := rfl
  have h2 : (AnalyticsService.compute s).total_spending =
      s.tuition + s.housing + s.food + s.transportation + s.books_supplies +
      s.entertainment + s.personal_care + s.technology + s.health_wellness +
      s.miscellaneous := rfl
  have h3 : (AnalyticsService.compute s).net_balance =
      (AnalyticsService.compute s).total_resources -
      (AnalyticsService.compute s).total_spending := rfl
  have h4 : (AnalyticsService.compute s).overspending_amount =
      (if (AnalyticsService.compute s).net_balance < 0 then
        |(AnalyticsService.compute s).net_balance| else 0) := rfl
  have h5 : (AnalyticsService.compute s).savings_potential =
      (if 0 < (AnalyticsService.compute s).net_balance then
        (AnalyticsService.compute s).net_balance else 0) := rfl
  set nb : ℤ := (AnalyticsService.compute s).net_balance with hnbdef
  refine ⟨h1, h2, h3, ?_, ?_, ?_, ?_⟩
  · rw [h4]
    by_cases h : nb < 0
    · rw [if_pos h, abs_of_neg h]
      exact (max_eq_right (by omega : (0 : ℤ) ≤ -nb)).symm
    · rw [if_neg h]
      exact (max_eq_left (by omega : -nb ≤ (0 : ℤ))).symm
  · rw [h5]
    by_cases h : 0 < nb
    · rw [if_pos h]
      exact (max_eq_right (le_of_lt h)).symm
    · rw [if_neg h]
      exact (max_eq_left (by omega : nb ≤ (0 : ℤ))).symm
  · rw [h4, h5]
    by_cases h : nb < 0
    · right
      rw [if_neg (by omega : ¬ 0 < nb)]
    · left
      rw [if_neg h]
  · rw [h4, h5]
    constructor
    · intro hc
      by_cases h : nb < 0
      · rw [if_pos h] at hc
        have := abs_eq_zero.mp hc.1
        omega
      · by_cases h' : 0 < nb
        · rw [if_pos h'] at hc
          have := hc.2
          omega
        · omega
    · intro h
      rw [if_neg (by omega : ¬ nb < 0), if_neg (by omega : ¬ 0 < nb)]
      exact ⟨rfl, rfl⟩

/-- C6: for every field set with `total_resources = 0`,
`AnalyticsService.compute` returns all five share ratios equal to `0`;
the division defining a share sits under the `0 < total_resources`
guard, so the guard makes `compute` total with no error branch. -/
theorem analytics_zero_resources_shares (s : SnapshotData)
    (h : s.monthly_income + s.financial_aid = 0) :
    (AnalyticsService.compute s).food_share = 0 ∧
    (AnalyticsService.compute s).housing_share = 0 ∧
    (AnalyticsService.compute s).entertainment_share = 0 ∧
    (AnalyticsService.compute s).discretionary_share = 0 ∧
    (AnalyticsService.compute s).tuition_share = 0 := by
  unfold AnalyticsService.compute
  simp only
  rw [h]
  norm_num

/-- Witness for `analytics_zero_resources_shares`: the all-zero snapshot
has zero total resources and zero shares. -/
theorem analytics_zero_resources_shares_witness :
    ((0 : ℤ) + 0 = 0) ∧
    ((AnalyticsService.compute ⟨20, 0, 0, 0, 0, 0, 0, 0, 0, 0, 0, 0, 0, 0, 0, 0, 0⟩).food_share = 0 ∧
     (AnalyticsService.compute ⟨20, 0, 0, 0, 0, 0, 0, 0, 0, 0, 0, 0, 0, 0, 0, 0, 0⟩).housing_share = 0 ∧
     (AnalyticsService.compute ⟨20, 0, 0, 0, 0, 0, 0, 0, 0, 0, 0, 0, 0, 0, 0, 0, 0⟩).entertainment_share = 0 ∧
     (AnalyticsService.compute ⟨20, 0, 0, 0, 0, 0, 0, 0, 0, 0, 0, 0, 0, 0, 0, 0, 0⟩).discretionary_share = 0 ∧
     (AnalyticsService.compute ⟨20, 0, 0, 0, 0, 0, 0, 0, 0, 0, 0, 0, 0, 0, 0, 0, 0⟩).tuition_share = 0) :=
  ⟨rfl, analytics_zero_resources_shares ⟨20, 0, 0, 0, 0, 0, 0, 0, 0, 0, 0, 0, 0, 0, 0, 0, 0⟩ rfl⟩

/-- Clamping to `[0.05, 0.95]` then rounding to 3 decimals stays in
`[0.05, 0.95]`. -/
theorem round3_clamp_mem (v : ℚ) :
    (0.05 : ℚ) ≤ round3 (max 0.05 (min 0.95 v)) ∧
    round3 (max 0.05 (min 0.95 v)) ≤ 0.95 := by
  have e1 : (0.05 : ℚ) = ((50 : ℤ) : ℚ) / 1000 := by norm_num
  have e2 : (0.95 : ℚ) = ((950 : ℤ) : ℚ) / 1000 := by norm_num
  have h1 : ((50 : ℤ) : ℚ) / 1000 ≤ max 0.05 (min 0.95 v) := by
    rw [← e1]
    exact le_max_left _ _
  have h2 : max (0.05 : ℚ) (min 0.95 v) ≤ ((950 : ℤ) : ℚ) / 1000 := by
    rw [← e2]
    exact max_le (by norm_num) (min_le_left _ _)
  have h := round3_mem_Icc h1 h2
  constructor
  · have ha := h.1
    push_cast at ha
    linarith
  · have hb := h.2
    push_cast at hb
    linarith

/-- Clamping to `[0.05, 0.85]` then rounding to 3 decimals stays in
`[0.05, 0.85]`. -/
theorem round3_model_clamp_mem (v : ℚ) :
    (0.05 : ℚ) ≤ round3 (min 0.85 (max 0.05 v)) ∧
    round3 (min 0.85 (max 0.05 v)) ≤ 0.85 := by
  have e1 : (0.05 : ℚ) = ((50 : ℤ) : ℚ) / 1000 := by norm_num
  have e2 : (0.85 : ℚ) = ((850 : ℤ) : ℚ) / 1000 := by norm_num
  have h1 : ((50 : ℤ) : ℚ) / 1000 ≤ min 0.85 (max 0.05 v) := by
    rw [← e1]
    exact le_min (by norm_num) (le_max_left _ _)
  have h2 : min (0.85 : ℚ) (max 0.05 v) ≤ ((850 : ℤ) : ℚ) / 1000 := by
    rw [← e2]
    exact min_le_left _ _
  have h := round3_mem_Icc h1 h2
  constructor
  · have ha := h.1
    push_cast at ha
    linarith
  · have hb := h.2
    push_cast at hb
    linarith

/-- C2 counterexample: the model-backed path does not keep
`financial_stress_prob` inside `[0.05, 0.95]`.  With a classifier row
`[0.01, 0.99]` (a perfectly legal `predict_proba` output) the returned
`financial_stress_prob` is `0.99 > 0.95`; the code clamps only
`overspending_prob`. -/
theorem model_path_stress_unclamped_counterexample :
    (predict_with_models [1/100, 99/100] (1/2)).financial_stress_prob = 99/100 ∧
    ¬ ((predict_with_models [1/100, 99/100] (1/2)).financial_stress_prob ≤ 0.95) := by
  have hval : (predict_with_models [1/100, 99/100] (1/2)).financial_stress_prob = 99/100 := by
    show round3 (if 1 < ([1/100, 99/100] : List ℚ).length then
        ([1/100, 99/100] : List ℚ).getD 1 0 else ([1/100, 99/100] : List ℚ).getD 0 0) = 99/100
    have hlen : (1 : ℕ) < ([1/100, 99/100] : List ℚ).length := by
      simp
    rw [if_pos hlen]
    show round3 (99/100) = 99/100
    unfold round3
    rw [show ((99 : ℚ)/100) * 1000 = ((990 : ℤ) : ℚ) by norm_num, round_intCast]
    norm_num
  refine ⟨hval, ?_⟩
  rw [hval]
  norm_num

/-- C2 (amended): the heuristic path clamps both probabilities into
`[0.05, 0.95]` (for any jitter draws of magnitude at most `0.05`, indeed
for any draws at all); the model-backed path clamps `overspending_prob`
into `[0.05, 0.85]` (hence inside `[0.05, 0.95]`), but its
`financial_stress_prob` is the selected classifier probability rounded
to 3 decimals, with no clamp applied. -/
theorem risk_probability_bounds_amended (ml : MLInput) (j1 j2 : ℚ)
    (sp : List ℚ) (sv : ℚ) (hj1 : |j1| ≤ 0.05) (hj2 : |j2| ≤ 0.05) :
    (0.05 ≤ (mock_predict ml j1 j2).overspending_prob ∧
      (mock_predict ml j1 j2).overspending_prob ≤ 0.95) ∧
    (0.05 ≤ (mock_predict ml j1 j2).financial_stress_prob ∧
      (mock_predict ml j1 j2).financial_stress_prob ≤ 0.95) ∧
    (0.05 ≤ (predict_with_models sp sv).overspending_prob ∧
      (predict_with_models sp sv).overspending_prob ≤ 0.85) ∧
    (predict_with_models sp sv).financial_stress_prob =
      round3 (if 1 < sp.length then sp.getD 1 0 else sp.getD 0 0) := by
  refine ⟨?_, ?_, ?_, rfl⟩
  · exact round3_clamp_mem (mock_overspending_base ml + j1)
  · exact round3_clamp_mem (mock_stress_base ml + j2)
  · exact round3_model_clamp_mem sv

/-- Witness for `risk_probability_bounds_amended` at a concrete input
and jitter draws of magnitude `0.01`. -/
theorem risk_probability_bounds_amended_witness :
    |(1/100 : ℚ)| ≤ 0.05 ∧
    0.05 ≤ (mock_predict ⟨20, 0, 2, 1, 1500, 200, 300, 400, 350, 80, 40, 120, 60, 50, 70, 90, 0⟩
      (1/100) (-(1/100))).overspending_prob ∧
    |(-(1/100) : ℚ)| ≤ 0.05 :=
  ⟨by norm_num [abs_le], ((risk_probability_bounds_amended
      ⟨20, 0, 2, 1, 1500, 200, 300, 400, 350, 80, 40, 120, 60, 50, 70, 90, 0⟩
      (1/100) (-(1/100)) [1/2] (1/2) (by norm_num [abs_le]) (by norm_num [abs_le])).1).1,
    by norm_num [abs_le]⟩

/-- C10: the heuristic path is noninterferent in the four demographic
inputs: two inputs agreeing on the twelve monetary fields and
`year_in_school` but differing arbitrarily in `age`, `gender`, `major`
and `preferred_payment_method` have identical pre-jitter base
probabilities and identical `_mock_predict` outputs under equal jitter
draws. -/
theorem mock_predict_demographic_noninterference (a b : MLInput) (j1 j2 : ℚ)
    (h1 : a.monthly_income = b.monthly_income) (h2 : a.financial_aid = b.financial_aid)
    (h3 : a.tuition = b.tuition) (h4 : a.housing = b.housing) (h5 : a.food = b.food)
    (h6 : a.transportation = b.transportation) (h7 : a.books_supplies = b.books_supplies)
    (h8 : a.entertainment = b.entertainment) (h9 : a.personal_care = b.personal_care)
    (h10 : a.technology = b.technology) (h11 : a.health_wellness = b.health_wellness)
    (h12 : a.miscellaneous = b.miscellaneous) (h13 : a.year_in_school = b.year_in_school) :
    mock_overspending_base a = mock_overspending_base b ∧
    mock_stress_base a = mock_stress_base b ∧
    mock_predict a j1 j2 = mock_predict b j1 j2 := by
  have hr : mock_spending_ratio a = mock_spending_ratio b := by
    unfold mock_spending_ratio
    rw [h1, h2, h3, h4, h5, h6, h7, h8, h9, h10, h11, h12]
  have ho : mock_overspending_base a = mock_overspending_base b := by
    unfold mock_overspending_base
    rw [hr, h1, h2, h8, h9, h12]
  have hs : mock_stress_base a = mock_stress_base b := by
    unfold mock_stress_base
    rw [hr, h1, h2, h13]
  refine ⟨ho, hs, ?_⟩
  unfold mock_predict
  rw [ho, hs]

/-- Witness for `mock_predict_demographic_noninterference`: two concrete
inputs differing exactly in age, gender, major and payment method. -/
theorem mock_predict_demographic_noninterference_witness :
    (⟨20, 0, 2, 1, 1500, 200, 300, 400, 350, 80, 40, 120, 60, 50, 70, 90, 0⟩ :
      MLInput).monthly_income =
      (⟨35, 2, 2, 7, 1500, 200, 300, 400, 350, 80, 40, 120, 60, 50, 70, 90, 3⟩ :
      MLInput).monthly_income ∧
    mock_predict ⟨20, 0, 2, 1, 1500, 200, 300, 400, 350, 80, 40, 120, 60, 50, 70, 90, 0⟩
      (1/100) (1/100) =
    mock_predict ⟨35, 2, 2, 7, 1500, 200, 300, 400, 350, 80, 40, 120, 60, 50, 70, 90, 3⟩
      (1/100) (1/100) :=
  ⟨rfl, (mock_predict_demographic_noninterference
      ⟨20, 0, 2, 1, 1500, 200, 300, 400, 350, 80, 40, 120, 60, 50, 70, 90, 0⟩
      ⟨35, 2, 2, 7, 1500, 200, 300, 400, 350, 80, 40, 120, 60, 50, 70, 90, 3⟩
      (1/100) (1/100) rfl rfl rfl rfl rfl rfl rfl rfl rfl rfl rfl rfl rfl).2.2⟩

/-- C3 counterexample: a failed load attempt does not pin the scorer to
the heuristic path.  First call: files exist but `joblib.load` fails —
heuristic is served.  The very next `predict` call re-attempts the
artifact load (the attempt flag of `_load_models` is `true`) and, the
load now succeeding, transitions to Model-backed. -/
theorem failed_load_not_pinned_counterexample :
    (predictPath ⟨true, false⟩ scorerInit).2 = RiskPath.heuristic ∧
    (_load_models ⟨true, true⟩ (predictPath ⟨true, false⟩ scorerInit).1).2 = true ∧
    (predictPath ⟨true, true⟩ (predictPath ⟨true, false⟩ scorerInit).1).2 =
      RiskPath.modelBacked := by
  refine ⟨rfl, rfl, rfl⟩

/-- C3 (amended): the transition to Model-backed is monotone and
happens at most once — once `_models_loaded` is true, `_load_models` is
an identity that performs no further load attempt and `predict` always
takes the Model-backed path.  A failed attempt, however, does not pin
the heuristic path: while unloaded, each `predict` call re-attempts the
load exactly when the artifact files exist, and transitions to
Model-backed exactly when that attempt succeeds. -/
theorem model_load_once_amended (env : LoadEnv) (s : ScorerState) :
    (s.models_loaded = true →
      _load_models env s = (s, false) ∧ (predictPath env s).1 = s ∧
      (predictPath env s).2 = RiskPath.modelBacked) ∧
    (s.models_loaded = false →
      ((predictPath env s).1.models_loaded = true ↔
        env.files_exist = true ∧ env.load_ok = true) ∧
      ((predictPath env s).2 = RiskPath.modelBacked ↔
        env.files_exist = true ∧ env.load_ok = true)) := by
  obtain ⟨ml⟩ := s
  obtain ⟨fe, lo⟩ := env
  cases ml <;> cases fe <;> cases lo <;> decide

/-- Witness for `model_load_once_amended`: in the loaded state the next
call performs no load attempt and stays loaded. -/
theorem model_load_once_amended_witness :
    (⟨true⟩ : ScorerState).models_loaded = true ∧
    _load_models ⟨true, true⟩ ⟨true⟩ = (⟨true⟩, false) :=
  ⟨rfl, ((model_load_once_amended ⟨true, true⟩ ⟨true⟩).1 rfl).1⟩

/-- A case-insensitive prefix is no longer than the list it prefixes. -/
theorem ciPrefix_length_le : ∀ pat s : List Char, ciPrefix pat s = true → pat.length ≤ s.length := by
  intro pat
  induction pat with
  | nil =>
    intro s _
    simp
  | cons p ps ih =>
    intro s h
    cases s with
    | nil => simp [ciPrefix] at h
    | cons c cs =>
      simp only [ciPrefix, Bool.and_eq_true] at h
      have := ih cs h.2
      simp only [List.length_cons]
      omega

/-- If the pattern does not occur (case-insensitively) in `s`, the
replacement leaves `s` unchanged. -/
theorem ciReplace_of_not_contains {pat repl : List Char} :
    ∀ s : List Char, containsCI pat s = false → ciReplace pat repl s = s := by
  intro s
  induction s with
  | nil =>
    intro _
    rw [ciReplace]
  | cons c cs ih =>
    intro h
    simp only [containsCI, Bool.or_eq_false_iff] at h
    rw [ciReplace]
    rw [dif_neg]
    · rw [ih h.2]
    · intro hc
      rw [hc.2] at h
      exact Bool.true_eq_false ▸ h.1.symm ▸ (by simp at h)

/-- Replacement with a token no longer than the pattern never increases
length. -/
theorem ciReplace_length_le (pat repl : List Char) (hlen : repl.length ≤ pat.length) :
    ∀ s : List Char, (ciReplace pat repl s).length ≤ s.length := by
  have H : ∀ n : Nat, ∀ s : List Char, s.length ≤ n →
      (ciReplace pat repl s).length ≤ s.length := by
    intro n
    induction n with
    | zero =>
      intro s hs
      have : s = [] := List.eq_nil_of_length_eq_zero (Nat.le_zero.mp hs)
      subst this
      rw [ciReplace]
    | succ n ih =>
      intro s hs
      match s with
      | [] => rw [ciReplace]
      | c :: cs =>
        rw [ciReplace]
        by_cases hcond : pat ≠ [] ∧ ciPrefix pat (c :: cs) = true
        · rw [dif_pos hcond]
          have hp : 1 ≤ pat.length := by
            cases pat with
            | nil => exact absurd rfl hcond.1
            | cons _ _ => simp
          have hple : pat.length ≤ cs.length + 1 := by
            have := ciPrefix_length_le pat (c :: cs) hcond.2
            simpa using this
          have hrec := ih ((c :: cs).drop pat.length) (by
            simp only [List.length_drop, List.length_cons]
            have : cs.length + 1 ≤ n + 1 := by simpa using hs
            omega)
          simp only [List.length_append, List.length_drop, List.length_cons] at hrec ⊢
          omega
        · rw [dif_neg hcond]
          have hrec := ih cs (by
            have : cs.length + 1 ≤ n + 1 := by simpa using hs
            omega)
          simp only [List.length_cons]
          omega
  intro s
  exact H s.length s le_rfl

/-- Stripping never increases length. -/
theorem pyStrip_length_le (s : List Char) : (pyStrip s).length ≤ s.length := by
  unfold pyStrip
  calc (((s.dropWhile isPySpace).reverse.dropWhile isPySpace).reverse).length
      = ((s.dropWhile isPySpace).reverse.dropWhile isPySpace).length := by
        rw [List.length_reverse]
    _ ≤ (s.dropWhile isPySpace).reverse.length :=
        (List.dropWhile_sublist _).length_le
    _ = (s.dropWhile isPySpace).length := by rw [List.length_reverse]
    _ ≤ s.length := (List.dropWhile_sublist _).length_le

/-- Folding the redaction over any pattern list each of whose members is
at least as long as the replacement token never increases length. -/
theorem foldl_replace_length_le :
    ∀ (pats : List (List Char)) (m : List Char),
      (∀ p ∈ pats, REMOVED_TOKEN.length ≤ p.length) →
      (pats.foldl (fun acc pat => ciReplace pat REMOVED_TOKEN acc) m).length ≤ m.length := by
  intro pats
  induction pats with
  | nil =>
    intro m _
    simp
  | cons p ps ih =>
    intro m hp
    simp only [List.foldl_cons]
    have h1 := ciReplace_length_le p REMOVED_TOKEN (hp p (List.mem_cons_self p ps)) m
    have h2 := ih (ciReplace p REMOVED_TOKEN m)
      (fun q hq => hp q (List.mem_cons_of_mem _ hq))
    omega

/-- Every injection pattern is at least as long as `[removed]`. -/
theorem injection_patterns_long :
    ∀ p ∈ INJECTION_PATTERNS, REMOVED_TOKEN.length ≤ p.length := by
  decide

/-- Folding the redaction over the patterns leaves a text containing
none of them unchanged. -/
theorem foldl_replace_of_clean :
    ∀ (pats : List (List Char)) (m : List Char),
      (∀ p ∈ pats, containsCI p m = false) →
      pats.foldl (fun acc pat => ciReplace pat REMOVED_TOKEN acc) m = m := by
  intro pats
  induction pats with
  | nil =>
    intro m _
    rfl
  | cons p ps ih =>
    intro m hp
    simp only [List.foldl_cons]
    rw [ciReplace_of_not_contains m (hp p (List.mem_cons_self p ps))]
    exact ih m (fun q hq => hp q (List.mem_cons_of_mem _ hq))

/-- On already-clean text (length within the limit, stripped, containing
no injection pattern), `sanitize_user_input` is the identity. -/
theorem sanitize_clean_fixed (t : List Char)
    (h1 : t.length ≤ MAX_USER_MESSAGE_LENGTH) (h2 : pyStrip t = t)
    (h3 : ∀ p ∈ INJECTION_PATTERNS, containsCI p t = false) :
    sanitize_user_input t = t := by
  by_cases hne : t = []
  · subst hne
    rfl
  · unfold sanitize_user_input
    rw [if_neg hne, if_neg (by omega : ¬ MAX_USER_MESSAGE_LENGTH < t.length)]
    rw [foldl_replace_of_clean INJECTION_PATTERNS t h3]
    exact h2

/-- C9: `sanitize_user_input` is idempotent on already-clean text (at
most 2000 characters, already stripped, containing no injection
phrase), and for every input the output length never exceeds the
maximum length plus the appended ellipsis (`2000 + 3` characters). -/
theorem sanitize_idempotent_and_length_bounded (t u : List Char)
    (h1 : t.length ≤ MAX_USER_MESSAGE_LENGTH) (h2 : pyStrip t = t)
    (h3 : ∀ p ∈ INJECTION_PATTERNS, containsCI p t = false) :
    sanitize_user_input (sanitize_user_input t) = sanitize_user_input t ∧
    (sanitize_user_input u).length ≤ MAX_USER_MESSAGE_LENGTH + 3 := by
  constructor
  · have hfix := sanitize_clean_fixed t h1 h2 h3
    rw [hfix, hfix]
  · by_cases hne : u = []
    · subst hne
      simp [sanitize_user_input]
    · unfold sanitize_user_input
      rw [if_neg hne]
      have hm1 : (if MAX_USER_MESSAGE_LENGTH < u.length
          then u.take MAX_USER_MESSAGE_LENGTH ++ "...".toList
          else u).length ≤ MAX_USER_MESSAGE_LENGTH + 3 := by
        by_cases hlong : MAX_USER_MESSAGE_LENGTH < u.length
        · rw [if_pos hlong]
          simp only [List.length_append, List.length_take]
          have : ("...".toList).length = 3 := rfl
          omega
        · rw [if_neg hlong]
          omega
      have hfold := foldl_replace_length_le INJECTION_PATTERNS
        (if MAX_USER_MESSAGE_LENGTH < u.length
          then u.take MAX_USER_MESSAGE_LENGTH ++ "...".toList
          else u) injection_patterns_long
      have hstrip := pyStrip_length_le (INJECTION_PATTERNS.foldl
        (fun acc pat => ciReplace pat REMOVED_TOKEN acc)
        (if MAX_USER_MESSAGE_LENGTH < u.length
          then u.take MAX_USER_MESSAGE_LENGTH ++ "...".toList
          else u))
      omega

/-- Witness for `sanitize_idempotent_and_length_bounded` on the concrete
clean text `hello`. -/
theorem sanitize_idempotent_and_length_bounded_witness :
    ("hello".toList.length ≤ MAX_USER_MESSAGE_LENGTH) ∧
    sanitize_user_input (sanitize_user_input "hello".toList) =
      sanitize_user_input "hello".toList :=
  ⟨by decide, (sanitize_idempotent_and_length_bounded "hello".toList "hi!".toList
      (by decide) (by decide) (by decide)).1⟩

/-- C1: evaluating `generate_response` at a failing input.  With the
API client missing and a perfectly valid snapshot, the code does not
return the deterministic fallback `TeacherOutput`: the call
`self._generate_fallback_response(snapshot, ml_output, analytics,
safe_message, previous_snapshot, previous_analytics)` passes six
positional arguments to a method whose signature accepts none, so a
`TypeError` escapes to the caller.  The same arity mismatch sits on
every other fallback path (invalid data, generation error, safety or
JSON failure). -/
theorem generate_response_fallback_typeerror :
    generate_response ⟨false, ClaudeOutcome.raised⟩
      ⟨20, 0, 2, 1, 1500, 200, 300, 400, 350, 80, 40, 120, 60, 50, 70, 90, 0⟩
      ⟨1/2, 1/2⟩
      (AnalyticsService.compute
        ⟨20, 0, 2, 1, 1500, 200, 300, 400, 350, 80, 40, 120, 60, 50, 70, 90, 0⟩)
      "hi".toList none
      = Except.error PyError.typeError ∧
    generate_response ⟨true, ClaudeOutcome.raised⟩
      ⟨20, 0, 2, 1, 1500, 200, 300, 400, 350, 80, 40, 120, 60, 50, 70, 90, 0⟩
      ⟨1/2, 1/2⟩
      (AnalyticsService.compute
        ⟨20, 0, 2, 1, 1500, 200, 300, 400, 350, 80, 40, 120, 60, 50, 70, 90, 0⟩)
      "hi".toList none
      = Except.error PyError.typeError := by
  constructor
  · rfl
  · rfl

/-- C7: evaluating the survey fallback at a failing input.  With fields
still missing and no API key configured, `next_prompt` does not return
the canned entry for the first missing field: the fallback call passes
three positional arguments to `_generate_mock_question`, which accepts
at most two, so a `TypeError` escapes (likewise after a generation
error).  The canned table itself does cover every field of the 17-field
taxonomy, and the mock body would have produced the `age` entry. -/
theorem survey_fallback_typeerror_and_canned_coverage :
    generate_next_question ⟨false, SurveyOutcome.raised⟩ [] [] false
      = Except.error PyError.typeError ∧
    generate_next_question ⟨true, SurveyOutcome.raised⟩ [] [] false
      = Except.error PyError.typeError ∧
    REQUIRED_FIELDS.all (fun f => (survey_questions f).isSome) = true ∧
    (_generate_mock_question [] false).field = some "age" := by
  refine ⟨rfl, rfl, ?_, rfl⟩
  decide

/-- C8: with a fully populated profile, the profile is authoritative —
the user row is left unchanged and every successfully parsed snapshot
carries the stored profile values regardless of what was parsed from
free text; and only an incomplete profile is (first-time) populated
from the freshly parsed profile fields. -/
theorem parser_profile_authoritative (parsed : SnapshotData) (u : User)
    (h : u.has_profile = true) :
    (ClaudeParserService.parse true parsed (some u)).2 = some u ∧
    (∀ s, (ClaudeParserService.parse true parsed (some u)).1 = Except.ok s →
      some s.age = u.age ∧ some s.gender = u.gender ∧
      some s.year_in_school = u.year_in_school ∧ some s.major = u.major ∧
      some s.preferred_payment_method = u.preferred_payment_method) ∧
    (∀ u' : User, u'.has_profile = false →
      (ClaudeParserService.parse true parsed (some u')).2 =
        some ⟨some parsed.age, some parsed.gender, some parsed.year_in_school,
          some parsed.major, some parsed.preferred_payment_method⟩) := by
  refine ⟨?_, ?_, ?_⟩
  · simp only [ClaudeParserService.parse]
    rw [if_neg (by simp)]
    simp [h]
  · intro s hs
    simp only [ClaudeParserService.parse] at hs
    rw [if_neg (by simp)] at hs
    simp only [h, if_pos] at hs
    obtain ⟨ha, hg, hy, hm, hp⟩ : u.age.isSome ∧ u.gender.isSome ∧
        u.year_in_school.isSome ∧ u.major.isSome ∧
        u.preferred_payment_method.isSome := by
      unfold User.has_profile at h
      simp only [Bool.and_eq_true] at h
      exact ⟨h.1.1.1.1, h.1.1.1.2, h.1.1.2, h.1.2, h.2⟩
    unfold SnapshotData.validate at hs
    split at hs
    · injection hs with hs'
      subst hs'
      refine ⟨?_, ?_, ?_, ?_, ?_⟩
      · obtain ⟨a, hae⟩ := Option.isSome_iff_exists.mp ha
        rw [hae]
        rfl
      · obtain ⟨g, hge⟩ := Option.isSome_iff_exists.mp hg
        rw [hge]
        rfl
      · obtain ⟨y, hye⟩ := Option.isSome_iff_exists.mp hy
        rw [hye]
        rfl
      · obtain ⟨m, hme⟩ := Option.isSome_iff_exists.mp hm
        rw [hme]
        rfl
      · obtain ⟨p, hpe⟩ := Option.isSome_iff_exists.mp hp
        rw [hpe]
        rfl
    · exact absurd hs (by simp)
  · intro u' hu'
    simp only [ClaudeParserService.parse]
    rw [if_neg (by simp)]
    simp [hu']

/-- Witness for `parser_profile_authoritative` at a concrete parsed dict
and a complete stored profile. -/
theorem parser_profile_authoritative_witness :
    (⟨some 22, some 1, some 3, some 0, some 2⟩ : User).has_profile = true ∧
    (ClaudeParserService.parse true
      ⟨19, 0, 0, 8, 900, 100, 200, 300, 250, 60, 30, 90, 40, 35, 50, 70, 1⟩
      (some ⟨some 22, some 1, some 3, some 0, some 2⟩)).2 =
      some ⟨some 22, some 1, some 3, some 0, some 2⟩ :=
  ⟨rfl, (parser_profile_authoritative
    ⟨19, 0, 0, 8, 900, 100, 200, 300, 250, 60, 30, 90, 40, 35, 50, 70, 1⟩
    ⟨some 22, some 1, some 3, some 0, some 2⟩ rfl).1⟩

/-- C4: the same-day merge rule.  For an update carrying field updates:
if the active snapshot was created today, the row set keeps its size
(no new row), rows other than the active one are untouched, and two
same-day updates on a store holding exactly today's snapshot leave
exactly one row holding the second update's values; if the active
snapshot is older, the store becomes the old store plus one fresh row
dated today, every earlier row surviving unchanged. -/
theorem teacher_chat_same_day_merge (db : List SnapRow) (active : SnapRow)
    (today : ℤ) (updates : List FieldUpdate) (probs : ℚ × ℚ) (fid : Nat)
    (hup : updates ≠ []) :
    (active.created_date = today →
      (teacher_chat_merge db active today updates probs fid).length = db.length ∧
      ∀ r ∈ db, r.id ≠ active.id →
        r ∈ teacher_chat_merge db active today updates probs fid) ∧
    (active.created_date ≠ today →
      teacher_chat_merge db active today updates probs fid =
        db ++ [⟨fid, today, applyFieldUpdates active.fields updates,
          probs.1, probs.2⟩] ∧
      ∀ r ∈ db, r ∈ teacher_chat_merge db active today updates probs fid) ∧
    (∀ (i : Nat) (d0 : SnapshotData) (p0 : ℚ × ℚ) (us1 us2 : List FieldUpdate),
      us1 ≠ [] → us2 ≠ [] →
      teacher_chat_merge
        (teacher_chat_merge [⟨i, today, d0, p0.1, p0.2⟩]
          ⟨i, today, d0, p0.1, p0.2⟩ today us1 probs fid)
        ⟨i, today, applyFieldUpdates d0 us1, probs.1, probs.2⟩
        today us2 probs fid
      = [⟨i, today, applyFieldUpdates (applyFieldUpdates d0 us1) us2,
          probs.1, probs.2⟩]) := by
  refine ⟨?_, ?_, ?_⟩
  · intro hd
    unfold teacher_chat_merge
    rw [if_neg hup, if_pos hd]
    constructor
    · exact List.length_map _ _
    · intro r hr hne
      refine List.mem_map.mpr ⟨r, hr, ?_⟩
      rw [if_neg hne]
  · intro hd
    unfold teacher_chat_merge
    rw [if_neg hup, if_neg hd]
    exact ⟨rfl, fun r hr => List.mem_append_left _ hr⟩
  · intro i d0 p0 us1 us2 h1 h2
    simp [teacher_chat_merge, h1, h2]

/-- Witness for `teacher_chat_same_day_merge`: two concrete same-day
food updates leave exactly one row with the second value. -/
theorem teacher_chat_same_day_merge_witness :
    (([⟨"food", 350⟩] : List FieldUpdate) ≠ []) ∧
    teacher_chat_merge
      (teacher_chat_merge
        [⟨1, 5, ⟨20, 0, 2, 1, 2300, 0, 800, 800, 420, 100, 50, 300, 150, 80, 100, 215, 0⟩, 1/2, 1/2⟩]
        ⟨1, 5, ⟨20, 0, 2, 1, 2300, 0, 800, 800, 420, 100, 50, 300, 150, 80, 100, 215, 0⟩, 1/2, 1/2⟩
        5 [⟨"food", 350⟩] (1/3, 1/4) 9)
      ⟨1, 5, applyFieldUpdates
        ⟨20, 0, 2, 1, 2300, 0, 800, 800, 420, 100, 50, 300, 150, 80, 100, 215, 0⟩
        [⟨"food", 350⟩], 1/3, 1/4⟩
      5 [⟨"food", 350⟩] (1/3, 1/4) 9
    = [⟨1, 5, applyFieldUpdates (applyFieldUpdates
        ⟨20, 0, 2, 1, 2300, 0, 800, 800, 420, 100, 50, 300, 150, 80, 100, 215, 0⟩
        [⟨"food", 350⟩]) [⟨"food", 350⟩], 1/3, 1/4⟩] :=
  ⟨by simp, (teacher_chat_same_day_merge
      [⟨1, 5, ⟨20, 0, 2, 1, 2300, 0, 800, 800, 420, 100, 50, 300, 150, 80, 100, 215, 0⟩, 1/2, 1/2⟩]
      ⟨1, 5, ⟨20, 0, 2, 1, 2300, 0, 800, 800, 420, 100, 50, 300, 150, 80, 100, 215, 0⟩, 1/2, 1/2⟩
      5 [⟨"food", 350⟩] (1/3, 1/4) 9 (by simp)).2.2
      1 ⟨20, 0, 2, 1, 2300, 0, 800, 800, 420, 100, 50, 300, 150, 80, 100, 215, 0⟩
      (1/2, 1/2) [⟨"food", 350⟩] [⟨"food", 350⟩] (by simp) (by simp)⟩
